import Mathlib

/-!
Shallow embedding of the query-construction, credential-resolution,
validation and normalization logic of the ads_mcp tool package
(src/ads_mcp/tools/*.py), together with theorems settling the frozen
claims about it.  Python strings are modelled as Lean String, Python
None via Option, raised exceptions via Except, and the external SDK
(service clients, enums, hashing) via explicit parameters.
-/

namespace AdsMcp

/-! ## Python string primitives -/

/-- Boolean test that `needle` occurs as a prefix of `hay` (list form). -/
def prefixEq : List Char → List Char → Bool
  | [], _ => true
  | _ :: _, [] => false
  | a :: as, b :: bs => a == b && prefixEq as bs

/-- Boolean test that `needle` occurs as a contiguous sublist of `hay`. -/
def containsSub (needle : List Char) : List Char → Bool
  | [] => needle.isEmpty
  | b :: bs => prefixEq needle (b :: bs) || containsSub needle bs

/-- Models the Python expression `needle in hay` on strings (substring test). -/
def strContains (hay needle : String) : Bool :=
  containsSub needle.data hay.data

/-- Models Python `s.lower()` (ASCII model, as used on the ASCII inputs here). -/
def pyLower (s : String) : String :=
  ⟨s.data.map Char.toLower⟩

/-- Models Python `s.upper()` (ASCII model). -/
def pyUpper (s : String) : String :=
  ⟨s.data.map Char.toUpper⟩

/-- Models Python `s.strip()`: drop leading and trailing whitespace. -/
def pyStrip (s : String) : String :=
  ⟨((s.data.dropWhile Char.isWhitespace).reverse.dropWhile Char.isWhitespace).reverse⟩

/-- Models the Python idiom `"".join(s.split())`: removal of every
whitespace character of the string. -/
def removeAllWS (s : String) : String :=
  ⟨s.data.filter (fun c => !c.isWhitespace)⟩

/-- Models Python `s.replace("-", "")`. -/
def pyRemoveDashes (s : String) : String :=
  ⟨s.data.filter (fun c => !(c == '-'))⟩

/-- Models the Python expression `o or d` for an optional string `o`:
the default is taken when the value is absent or empty (falsy). -/
def pyOrStr (o : Option String) (d : String) : String :=
  match o with
  | none => d
  | some s => if s = "" then d else s

/-- Python truthiness of an optional string: present and non-empty. -/
def strTruthy : Option String → Bool
  | none => false
  | some s => s != ""

/-- Models the Python expression `o or []` for an optional list. -/
def pyOrList (o : Option (List String)) : List String :=
  o.getD []

/-! ## api.py : preprocess_gaql (lines 152-158) -/

/-- Embeds `preprocess_gaql` of src/ads_mcp/tools/api.py: adds the
`omit_unselected_resource_names=true` flag to a GAQL query that does not
already contain it. -/
def preprocess_gaql (query : String) : String :=
  if strContains query "omit_unselected_resource_names" = false then
    if (strContains query "PARAMETERS" && strContains query "include_drafts") = true then
      query ++ " omit_unselected_resource_names=true"
    else
      query ++ " PARAMETERS omit_unselected_resource_names=true"
  else query

/-! ## api.py : search_ads query construction (lines 281-292) -/

/-- Python truthiness of an optional list argument: present and non-empty. -/
def pyListTruthy : Option (List String) → Bool
  | some (_ :: _) => true
  | _ => false

/-- Embeds the GAQL construction of `search_ads` in src/ads_mcp/tools/api.py
(lines 281-292): the query parts are accumulated in a list and joined. -/
def search_ads_query (resource : String) (fields : List String)
    (conditions orderings : Option (List String)) (limit : Option Int) : String :=
  let query_parts := ["SELECT " ++ String.intercalate ", " fields ++ " FROM " ++ resource]
  let query_parts := if pyListTruthy conditions then
      query_parts ++ [" WHERE " ++ String.intercalate " AND " (conditions.getD [])]
    else query_parts
  let query_parts := if pyListTruthy orderings then
      query_parts ++ [" ORDER BY " ++ String.intercalate ", " (orderings.getD [])]
    else query_parts
  let query_parts := match limit with
    | some n => query_parts ++ [" LIMIT " ++ toString n]
    | none => query_parts
  String.join query_parts

/-! ## api.py : credential resolution (lines 36-135) -/

/-- Abstract handle standing for a GoogleAdsClient, tagged with how it was
constructed: from a per-request access token (with the resolved developer
token and login customer id), from the environment-variable config dict,
or loaded from a credentials file. -/
inductive AdsClient where
  | fromToken (token : String) (developer_token : Option String)
      (login_customer_id : Option String)
  | fromDict (developer_token client_id client_secret refresh_token : String)
      (login_customer_id : Option String)
  | fromStorage (path : String)
deriving DecidableEq

/-- Ambient process state read by get_ads_client: the per-request access
token supplied by the hosting framework (if an authentication context is
present, with its token string), the environment variables, the root
directory, and the filesystem (existence and the developer_token entry of
a YAML credentials file). -/
structure Env where
  accessToken : Option String
  developerTokenVar : Option String
  clientIdVar : Option String
  clientSecretVar : Option String
  refreshTokenVar : Option String
  loginCustomerIdVar : Option String
  credentialsVar : Option String
  rootDir : String
  fileExists : String → Bool
  fileDeveloperToken : String → Option String

/-- Models `login_customer_id.replace("-", "").strip() or None` applied to
`os.environ.get("GOOGLE_ADS_LOGIN_CUSTOMER_ID", "")`, as done on both the
token path and the environment path of api.py. -/
def normalizeLoginCid (v : Option String) : Option String :=
  let s := pyStrip (pyRemoveDashes (v.getD ""))
  if s = "" then none else some s

/-- Embeds `_get_client_from_env` (api.py lines 39-75): builds a client
from the four required environment variables when all are truthy. -/
def _get_client_from_env (env : Env) : Option AdsClient :=
  if strTruthy env.developerTokenVar && strTruthy env.clientIdVar
      && strTruthy env.clientSecretVar && strTruthy env.refreshTokenVar then
    some (.fromDict (env.developerTokenVar.getD "") (env.clientIdVar.getD "")
      (env.clientSecretVar.getD "") (env.refreshTokenVar.getD "")
      (normalizeLoginCid env.loginCustomerIdVar))
  else none

/-- Models the credentials file path of api.py: the GOOGLE_ADS_CREDENTIALS
environment variable when present, else ROOT_DIR followed by
/google-ads.yaml (the default path, overridable by the variable). -/
def credPath (env : Env) : String :=
  env.credentialsVar.getD (env.rootDir ++ "/google-ads.yaml")

/-- Models lines 94-98 of api.py: the access token is used only when the
authentication context is present and its token string is truthy. -/
def tokenOf (env : Env) : Option String :=
  match env.accessToken with
  | none => none
  | some t => if t = "" then none else some t

/-- Models lines 99-106 of api.py: on the token path the developer token is
the environment variable when truthy, else the developer_token entry of
the credentials file when that file exists. -/
def resolveTokenDevToken (env : Env) : Option String :=
  if strTruthy env.developerTokenVar then env.developerTokenVar
  else if env.fileExists (credPath env) then env.fileDeveloperToken (credPath env)
  else env.developerTokenVar

/-- The literal message of the ValueError raised by get_ads_client
(api.py lines 126-133, adjacent string literals concatenated). -/
def noCredsMsg : String :=
  "No Google Ads credentials found. Provide either:\n  1. Environment variables: GOOGLE_ADS_DEVELOPER_TOKEN, GOOGLE_ADS_CLIENT_ID, GOOGLE_ADS_CLIENT_SECRET, GOOGLE_ADS_REFRESH_TOKEN\n  2. A google-ads.yaml file (set path via GOOGLE_ADS_CREDENTIALS env var)"

/-- Embeds `get_ads_client` (api.py lines 78-135).  The global singleton
`_ADS_CLIENT` is passed in and returned explicitly: the result pairs the
returned client with the value of the singleton after the call. -/
def get_ads_client (env : Env) (cache : Option AdsClient) :
    Except String (AdsClient × Option AdsClient) :=
  match tokenOf env with
  | some tok =>
      Except.ok (.fromToken tok (resolveTokenDevToken env)
        (normalizeLoginCid env.loginCustomerIdVar), cache)
  | none =>
      match cache with
      | some c => Except.ok (c, some c)
      | none =>
          match _get_client_from_env env with
          | some c => Except.ok (c, some c)
          | none =>
              if env.fileExists (credPath env) then
                Except.ok (.fromStorage (credPath env), some (.fromStorage (credPath env)))
              else
                Except.error noCredsMsg

/-! ## ad_groups.py and keywords.py : mutation request construction -/

/-- Models the SDK path helper ad_group_path.  Modelled from the spec:
resource names have the form customers/(customer id)/(collection)/(id);
the helper itself lives in the vendor SDK, outside this repository. -/
def ad_group_path (customer_id ad_group_id : String) : String :=
  "customers/" ++ customer_id ++ "/adGroups/" ++ ad_group_id

/-- Embeds `_enum_value` (ad_groups.py lines 26-31, identical copies in
keywords.py and campaigns.py): looks the name up in the enum, modelled by
the list of member names of the SDK enum type, and raises a ToolError on
an unknown name. -/
def _enum_value (enumNames : List String) (value : String) (field_name : String) :
    Except String String :=
  if enumNames.contains value then Except.ok value
  else Except.error ("Invalid " ++ field_name ++ ": " ++ value)

/-- The AdGroupOperation update request built by update_ad_group: the
fields written on the update object together with the update mask paths. -/
structure AdGroupUpdate where
  resource_name : String
  status : Option String
  name : Option String
  cpc_bid_micros : Option Int
  update_mask : List String
deriving DecidableEq

/-- Embeds `update_ad_group` (ad_groups.py lines 96-152) up to the network
call: validates that at least one optional field is supplied, then builds
the update operation, appending to the update mask exactly the field paths
of the supplied arguments, in the order status, name, cpc_bid_micros.
`statusEnum` is the member-name list of the SDK AdGroupStatusEnum.
An error value models a ToolError raised before any mutate call. -/
def update_ad_group (statusEnum : List String) (customer_id ad_group_id : String)
    (status name : Option String) (cpc_bid_micros : Option Int) :
    Except String AdGroupUpdate :=
  if status = none ∧ name = none ∧ cpc_bid_micros = none then
    Except.error "At least one of status, name, or cpc_bid_micros is required"
  else do
    let r0 : AdGroupUpdate :=
      { resource_name := ad_group_path customer_id ad_group_id,
        status := none, name := none, cpc_bid_micros := none, update_mask := [] }
    let r1 ← match status with
      | none => pure r0
      | some s => do
          let v ← _enum_value statusEnum s "status"
          pure { r0 with status := some v, update_mask := r0.update_mask ++ ["status"] }
    let r2 := match name with
      | none => r1
      | some nm => { r1 with name := some nm, update_mask := r1.update_mask ++ ["name"] }
    let r3 := match cpc_bid_micros with
      | none => r2
      | some c => { r2 with cpc_bid_micros := some c, update_mask := r2.update_mask ++ ["cpc_bid_micros"] }
    pure r3

/-- One AdGroupCriterionOperation built by add_keywords: a keyword
criterion created under the ad group. -/
structure KeywordCriterion where
  ad_group : String
  status : String
  text : String
  match_type : String
deriving DecidableEq

/-- Embeds `add_keywords` (keywords.py lines 35-94) up to the network call:
rejects an empty keyword list before building any operation, then builds
one criterion per keyword.  `matchTypeEnum` is the member-name list of the
SDK KeywordMatchTypeEnum. -/
def add_keywords (matchTypeEnum : List String) (customer_id ad_group_id : String)
    (keywords : List String) (match_type : String) :
    Except String (List KeywordCriterion) :=
  if keywords = [] then
    Except.error "keywords must not be empty"
  else
    keywords.mapM (fun keyword_text => do
      let mt ← _enum_value matchTypeEnum match_type "match_type"
      pure ({ ad_group := ad_group_path customer_id ad_group_id,
              status := "ENABLED", text := keyword_text,
              match_type := mt } : KeywordCriterion))

/-! ## audiences.py : normalization, hashing and member operations -/

/-- Embeds `_normalize_and_hash` (audiences.py lines 27-32).  The external
SHA-256 hex digest of the UTF-8 encoding (hashlib, outside this
repository) is passed in as the function `sha256_hex`. -/
def _normalize_and_hash (sha256_hex : String → String) (value : String)
    (remove_all_whitespace : Bool) : String :=
  let normalized := pyLower (pyStrip value)
  let normalized := if remove_all_whitespace then removeAllWS normalized else normalized
  sha256_hex normalized

/-- The hashed identifier placed on a UserData message: either a
hashed_email or a hashed_phone_number field holding a digest. -/
inductive UserIdentifier where
  | hashedEmail (digest : String)
  | hashedPhone (digest : String)
deriving DecidableEq

/-- One OfflineUserDataJobOperation: whether it is a remove (else create)
operation, and the user identifiers of its UserData payload. -/
structure OfflineOp where
  remove : Bool
  user_identifiers : List UserIdentifier
deriving DecidableEq

/-- The operation built for one email in the first loop of
`_build_offline_user_data_job_operations` (audiences.py lines 44-54). -/
def emailOperation (sha256_hex : String → String) (remove : Bool)
    (email : String) : OfflineOp :=
  { remove := remove,
    user_identifiers := [UserIdentifier.hashedEmail (_normalize_and_hash sha256_hex email true)] }

/-- The operation built for one phone number in the second loop of
`_build_offline_user_data_job_operations` (audiences.py lines 56-68). -/
def phoneOperation (sha256_hex : String → String) (remove : Bool)
    (phone_number : String) : OfflineOp :=
  { remove := remove,
    user_identifiers := [UserIdentifier.hashedPhone (_normalize_and_hash sha256_hex phone_number true)] }

/-- Embeds `_build_offline_user_data_job_operations` (audiences.py lines
35-70): one operation per email, then one per phone number, in input
order. -/
def _build_offline_user_data_job_operations (sha256_hex : String → String)
    (emails phone_numbers : List String) (remove : Bool) : List OfflineOp :=
  emails.map (emailOperation sha256_hex remove)
    ++ phone_numbers.map (phoneOperation sha256_hex remove)

/-- Embeds `add_customer_list_members` (audiences.py lines 126-207) up to
the remote job calls: validates that at least one value is supplied, then
builds the operations that are attached to the
AddOfflineUserDataJobOperationsRequest; the returned pair carries the
operations sent and the operation_count field of the result mapping
(the length of that operation list). -/
def add_customer_list_members (sha256_hex : String → String)
    (emails phone_numbers : Option (List String)) :
    Except String (List OfflineOp × Nat) :=
  let email_values := pyOrList emails
  let phone_values := pyOrList phone_numbers
  if email_values = [] ∧ phone_values = [] then
    Except.error "At least one of emails or phone_numbers is required"
  else
    let operations := _build_offline_user_data_job_operations sha256_hex
      email_values phone_values false
    Except.ok (operations, operations.length)

/-- Embeds `remove_customer_list_members` (audiences.py lines 211-292) up
to the remote job calls, in the same way; the operations are built with
remove set. -/
def remove_customer_list_members (sha256_hex : String → String)
    (emails phone_numbers : Option (List String)) :
    Except String (List OfflineOp × Nat) :=
  let email_values := pyOrList emails
  let phone_values := pyOrList phone_numbers
  if email_values = [] ∧ phone_values = [] then
    Except.error "At least one of emails or phone_numbers is required"
  else
    let operations := _build_offline_user_data_job_operations sha256_hex
      email_values phone_values true
    Except.ok (operations, operations.length)

/-- The normalization named by the claim, in the order the claim lists the
steps: lower-casing, trimming, then stripping all internal whitespace. -/
def specNormalize (s : String) : String :=
  removeAllWS (pyStrip (pyLower s))

/-! ## keyword_planner.py : historical metrics date range (lines 28-31, 104-121) -/

/-- Embeds `_VALID_MONTHS` of keyword_planner.py: the valid month names
for the MonthOfYear enum. -/
def _VALID_MONTHS : List String :=
  ["JANUARY", "FEBRUARY", "MARCH", "APRIL", "MAY", "JUNE",
   "JULY", "AUGUST", "SEPTEMBER", "OCTOBER", "NOVEMBER", "DECEMBER"]

/-- A year and month-name pair of the year_month_range message. -/
structure YearMonth where
  year : Int
  month : String
deriving DecidableEq

/-- The year_month_range set on historical_metrics_options. -/
structure YearMonthRange where
  startYM : YearMonth
  endYM : YearMonth
deriving DecidableEq

/-- Embeds the historical-metrics date range logic of
`generate_keyword_ideas` (keyword_planner.py lines 104-121): when no date
field is given no range is set; otherwise omitted fields are defaulted
(start_year to the previous year, start_month to JANUARY, end_year to the
current year, end_month to the current month name), month names are
upper-cased and validated against _VALID_MONTHS, and an invalid name
raises a ToolError listing the valid names.  `nowYear` and `nowMonth`
stand for datetime.datetime.now(). -/
def generate_keyword_ideas_range (nowYear : Int) (nowMonth : Nat)
    (start_year : Option Int) (start_month : Option String)
    (end_year : Option Int) (end_month : Option String) :
    Except String (Option YearMonthRange) :=
  if start_year.isSome || start_month.isSome || end_year.isSome || end_month.isSome then
    let s_year := start_year.getD (nowYear - 1)
    let s_month := pyUpper (pyOrStr start_month "JANUARY")
    let e_year := end_year.getD nowYear
    let e_month := pyUpper (pyOrStr end_month (_VALID_MONTHS.getD (nowMonth - 1) ""))
    if _VALID_MONTHS.contains s_month = false then
      Except.error ("Invalid start_month \x27" ++ s_month ++ "\x27. Must be one of: "
        ++ String.intercalate ", " _VALID_MONTHS)
    else if _VALID_MONTHS.contains e_month = false then
      Except.error ("Invalid end_month \x27" ++ e_month ++ "\x27. Must be one of: "
        ++ String.intercalate ", " _VALID_MONTHS)
    else
      Except.ok (some ⟨⟨s_year, s_month⟩, ⟨e_year, e_month⟩⟩)
  else
    Except.ok none

/-- One-based index of a month name in _VALID_MONTHS. -/
def monthIndex (m : String) : Int :=
  (_VALID_MONTHS.indexOf m : Nat) + 1

/-- Number of calendar months covered by a range, both endpoints included. -/
def monthsSpan (r : YearMonthRange) : Int :=
  (r.endYM.year - r.startYM.year) * 12 + (monthIndex r.endYM.month - monthIndex r.startYM.month) + 1

/-- Modelled from the spec: the claimed default, a range that is the
trailing 12 months ending at the current month. -/
def isTrailingTwelveMonths (nowYear : Int) (nowMonth : Nat) (r : YearMonthRange) : Prop :=
  r.endYM.year = nowYear ∧ r.endYM.month = _VALID_MONTHS.getD (nowMonth - 1) ""
    ∧ monthsSpan r = 12

instance (nowYear : Int) (nowMonth : Nat) (r : YearMonthRange) :
    Decidable (isTrailingTwelveMonths nowYear nowMonth r) := by
  unfold isTrailingTwelveMonths
  infer_instance

/-! ## Basic lemmas about the string model -/

theorem str_data_append (s t : String) : (s ++ t).data = s.data ++ t.data := rfl

theorem str_ext {s t : String} (h : s.data = t.data) : s = t := by
  cases s; cases t; exact congrArg String.mk h

theorem containsSub_append_of_right {n t : List Char} (h : containsSub n t = true) :
    ∀ s : List Char, containsSub n (s ++ t) = true := by
  intro s
  induction s with
  | nil => simpa using h
  | cons a as ih => simp [containsSub, ih]

theorem strContains_append_of_right {q s sub : String}
    (h : strContains s sub = true) : strContains (q ++ s) sub = true := by
  unfold strContains at *
  rw [str_data_append]
  exact containsSub_append_of_right h q.data

theorem str_empty_append (s : String) : "" ++ s = s := rfl

theorem str_append_empty (s : String) : s ++ "" = s :=
  str_ext (by simp [str_data_append])

theorem str_append_assoc (a b c : String) : a ++ b ++ c = a ++ (b ++ c) :=
  str_ext (by simp [str_data_append])

theorem str_join_append_singleton (l : List String) (s : String) :
    String.join (l ++ [s]) = String.join l ++ s := by
  simp [String.join, List.foldl_append]

theorem toLower_of_whitespace {c : Char} (h : c.isWhitespace = true) :
    c.toLower = c := by
  simp only [Char.isWhitespace, Bool.or_eq_true, decide_eq_true_eq] at h
  rcases h with ((h | h) | h) | h <;> subst h <;> decide

theorem filter_not_ws_dropWhile (l : List Char) :
    (l.dropWhile Char.isWhitespace).filter (fun c => !c.isWhitespace)
      = l.filter (fun c => !c.isWhitespace) := by
  induction l with
  | nil => rfl
  | cons c t ih =>
    by_cases hw : c.isWhitespace = true
    · simp [List.dropWhile_cons, hw, ih]
    · simp only [Bool.not_eq_true] at hw
      simp [List.dropWhile_cons, hw]

theorem filter_not_ws_map_toLower_dropWhile (l : List Char) :
    ((l.dropWhile Char.isWhitespace).map Char.toLower).filter (fun c => !c.isWhitespace)
      = (l.map Char.toLower).filter (fun c => !c.isWhitespace) := by
  induction l with
  | nil => rfl
  | cons c t ih =>
    by_cases hw : c.isWhitespace = true
    · have hl : c.toLower = c := toLower_of_whitespace hw
      simp [List.dropWhile_cons, hw, hl, ih]
    · simp only [Bool.not_eq_true] at hw
      simp [List.dropWhile_cons, hw]

/-- The characters surviving whitespace removal after lower-casing do not
depend on a preceding strip of leading and trailing whitespace. -/
theorem filter_not_ws_map_toLower_strip (l : List Char) :
    ((((l.dropWhile Char.isWhitespace).reverse.dropWhile Char.isWhitespace).reverse).map
        Char.toLower).filter (fun c => !c.isWhitespace)
      = (l.map Char.toLower).filter (fun c => !c.isWhitespace) := by
  rw [List.map_reverse, List.filter_reverse, filter_not_ws_map_toLower_dropWhile,
    ← List.filter_reverse, ← List.map_reverse, List.reverse_reverse,
    filter_not_ws_map_toLower_dropWhile]

/-- Stripping leading and trailing whitespace does not change which
characters survive whitespace removal. -/
theorem filter_not_ws_strip (l : List Char) :
    ((((l.dropWhile Char.isWhitespace).reverse.dropWhile Char.isWhitespace).reverse).filter
        (fun c => !c.isWhitespace))
      = l.filter (fun c => !c.isWhitespace) := by
  rw [List.filter_reverse, filter_not_ws_dropWhile, ← List.filter_reverse,
    List.reverse_reverse, filter_not_ws_dropWhile]

/-- The normalization performed by the code (strip, lower, remove all
whitespace) agrees with the normalization named by the claim (lower,
strip, remove all whitespace). -/
theorem code_normalize_eq_specNormalize (s : String) :
    removeAllWS (pyLower (pyStrip s)) = specNormalize s := by
  unfold specNormalize removeAllWS pyLower pyStrip
  refine str_ext ?_
  show ((((s.data.dropWhile Char.isWhitespace).reverse.dropWhile
      Char.isWhitespace).reverse).map Char.toLower).filter (fun c => !c.isWhitespace)
    = ((((s.data.map Char.toLower).dropWhile Char.isWhitespace).reverse.dropWhile
        Char.isWhitespace).reverse).filter (fun c => !c.isWhitespace)
  rw [filter_not_ws_map_toLower_strip, filter_not_ws_strip (s.data.map Char.toLower)]

/-! ## Claim C1 -/

/-- C1: for every query string q, preprocess_gaql returns q unchanged when q
already contains omit_unselected_resource_names; when q contains both
PARAMETERS and include_drafts it returns q with
" omit_unselected_resource_names=true" appended directly; otherwise it
returns q with a new " PARAMETERS omit_unselected_resource_names=true"
clause appended; in particular on "SELECT a FROM b" it returns
"SELECT a FROM b PARAMETERS omit_unselected_resource_names=true". -/
theorem c1_preprocess_gaql_cases (q : String) :
    (strContains q "omit_unselected_resource_names" = true → preprocess_gaql q = q)
    ∧ (strContains q "omit_unselected_resource_names" = false →
        strContains q "PARAMETERS" = true → strContains q "include_drafts" = true →
        preprocess_gaql q = q ++ " omit_unselected_resource_names=true")
    ∧ (strContains q "omit_unselected_resource_names" = false →
        (strContains q "PARAMETERS" && strContains q "include_drafts") = false →
        preprocess_gaql q = q ++ " PARAMETERS omit_unselected_resource_names=true")
    ∧ preprocess_gaql "SELECT a FROM b"
        = "SELECT a FROM b PARAMETERS omit_unselected_resource_names=true" := by
  refine ⟨fun h => ?_, fun h hp hd => ?_, fun h hpd => ?_, by decide⟩
  · simp [preprocess_gaql, h]
  · simp [preprocess_gaql, h, hp, hd]
  · simp [preprocess_gaql, h, hpd]

/-- Witness for C1 at concrete inputs: a query that already carries a
PARAMETERS include_drafts clause gets the flag appended to that clause. -/
theorem c1_preprocess_gaql_cases_witness :
    strContains "SELECT a FROM b PARAMETERS include_drafts=true"
        "omit_unselected_resource_names" = false
    ∧ preprocess_gaql "SELECT a FROM b PARAMETERS include_drafts=true"
        = "SELECT a FROM b PARAMETERS include_drafts=true omit_unselected_resource_names=true" :=
  ⟨by decide,
   (c1_preprocess_gaql_cases "SELECT a FROM b PARAMETERS include_drafts=true").2.1
     (by decide) (by decide) (by decide)⟩

/-! ## Claim C8 -/

/-- C8: preprocess_gaql is idempotent on every query string. -/
theorem c8_preprocess_gaql_idempotent (q : String) :
    preprocess_gaql (preprocess_gaql q) = preprocess_gaql q := by
  by_cases h : strContains q "omit_unselected_resource_names" = true
  · simp [preprocess_gaql, h]
  · have h0 : strContains q "omit_unselected_resource_names" = false :=
      Bool.not_eq_true _ ▸ Bool.of_not_eq_true h
    by_cases hc : (strContains q "PARAMETERS" && strContains q "include_drafts") = true
    · have h1 : preprocess_gaql q = q ++ " omit_unselected_resource_names=true" := by
        simp [preprocess_gaql, h0, hc]
      have h2 : strContains (q ++ " omit_unselected_resource_names=true")
          "omit_unselected_resource_names" = true :=
        strContains_append_of_right (by decide)
      rw [h1]
      simp [preprocess_gaql, h2]
    · have h1 : preprocess_gaql q = q ++ " PARAMETERS omit_unselected_resource_names=true" := by
        simp [preprocess_gaql, h0]
        intro hP hI
        exact absurd (by simp [hP, hI]) hc
      have h2 : strContains (q ++ " PARAMETERS omit_unselected_resource_names=true")
          "omit_unselected_resource_names" = true :=
        strContains_append_of_right (by decide)
      rw [h1]
      simp [preprocess_gaql, h2]

/-! ## Claim C2 -/

/-- C2: search_ads builds its GAQL string by deterministic concatenation of
a SELECT/FROM core, an optional WHERE clause (conditions joined by AND,
present exactly when conditions are supplied and non-empty), an optional
ORDER BY clause, and an optional LIMIT clause; on the example inputs the
result is exactly the expected string. -/
theorem c2_search_ads_query_shape (resource : String) (fields : List String)
    (conditions orderings : Option (List String)) (limit : Option Int) :
    search_ads_query resource fields conditions orderings limit
      = "SELECT " ++ String.intercalate ", " fields ++ " FROM " ++ resource
        ++ (if pyListTruthy conditions then
              " WHERE " ++ String.intercalate " AND " (conditions.getD []) else "")
        ++ (if pyListTruthy orderings then
              " ORDER BY " ++ String.intercalate ", " (orderings.getD []) else "")
        ++ (match limit with
            | some n => " LIMIT " ++ toString n
            | none => "")
    ∧ search_ads_query "campaign" ["campaign.id"]
        (some ["campaign.status = \x27ENABLED\x27"]) none (some 5)
      = "SELECT campaign.id FROM campaign WHERE campaign.status = \x27ENABLED\x27 LIMIT 5" := by
  constructor
  · unfold search_ads_query
    cases hc : pyListTruthy conditions <;> cases ho : pyListTruthy orderings <;>
      cases limit <;>
      simp [hc, ho, str_join_append_singleton, String.join, str_append_assoc,
        str_append_empty, str_empty_append]
  · decide

/-! ## Claim C3 -/

/-- C3: get_ads_client resolves credentials in priority order with first
match winning: a present per-request access token yields a fresh
token-built handle with the cached singleton neither consulted nor
changed; otherwise, with an empty cache and all four required environment
variables set (non-empty), the environment-built client is returned and
stored in the singleton; any later tokenless call returns the cached
client unchanged; otherwise the client is loaded from the credentials
file path, whose default is overridable by an environment variable. -/
theorem c3_get_ads_client_priority (env : Env) (cache : Option AdsClient) :
    (∀ tok, tokenOf env = some tok →
        get_ads_client env cache
          = Except.ok (AdsClient.fromToken tok (resolveTokenDevToken env)
              (normalizeLoginCid env.loginCustomerIdVar), cache))
    ∧ (∀ c, tokenOf env = none → _get_client_from_env env = some c →
        get_ads_client env none = Except.ok (c, some c))
    ∧ (∀ c, tokenOf env = none →
        get_ads_client env (some c) = Except.ok (c, some c))
    ∧ (tokenOf env = none → _get_client_from_env env = none →
        env.fileExists (credPath env) = true →
        get_ads_client env none
          = Except.ok (AdsClient.fromStorage (credPath env),
              some (AdsClient.fromStorage (credPath env))))
    ∧ (strTruthy env.developerTokenVar = true → strTruthy env.clientIdVar = true →
        strTruthy env.clientSecretVar = true → strTruthy env.refreshTokenVar = true →
        _get_client_from_env env
          = some (AdsClient.fromDict (env.developerTokenVar.getD "")
              (env.clientIdVar.getD "") (env.clientSecretVar.getD "")
              (env.refreshTokenVar.getD "") (normalizeLoginCid env.loginCustomerIdVar)))
    ∧ credPath env = env.credentialsVar.getD (env.rootDir ++ "/google-ads.yaml") := by
  refine ⟨fun tok ht => ?_, fun c ht hc => ?_, fun c ht => ?_,
    fun ht hc hf => ?_, fun h1 h2 h3 h4 => ?_, rfl⟩
  · simp [get_ads_client, ht]
  · simp [get_ads_client, ht, hc]
  · simp [get_ads_client, ht]
  · simp [get_ads_client, ht, hc, hf]
  · simp [_get_client_from_env, h1, h2, h3, h4]

/-- Concrete environment holding only a per-request access token. -/
def envTokenOnly : Env :=
  { accessToken := some "tok", developerTokenVar := none, clientIdVar := none,
    clientSecretVar := none, refreshTokenVar := none, loginCustomerIdVar := none,
    credentialsVar := none, rootDir := ".",
    fileExists := fun _ => false, fileDeveloperToken := fun _ => none }

/-- Witness for C3: with only an access token present, a fresh token-built
client is returned and a previously cached client is left untouched. -/
theorem c3_get_ads_client_priority_witness :
    tokenOf envTokenOnly = some "tok"
    ∧ get_ads_client envTokenOnly (some (AdsClient.fromStorage "p"))
        = Except.ok (AdsClient.fromToken "tok" none none,
            some (AdsClient.fromStorage "p")) :=
  ⟨rfl, (c3_get_ads_client_priority envTokenOnly
      (some (AdsClient.fromStorage "p"))).1 "tok" rfl⟩

/-! ## Claim C4 -/

/-- Concrete environment with no credential source at all. -/
def envNoCreds : Env :=
  { accessToken := none, developerTokenVar := none, clientIdVar := none,
    clientSecretVar := none, refreshTokenVar := none, loginCustomerIdVar := none,
    credentialsVar := none, rootDir := ".",
    fileExists := fun _ => false, fileDeveloperToken := fun _ => none }

set_option maxRecDepth 20000 in
/-- Counterexample for C4 as stated: the configuration error is raised, but
its message enumerates only two numbered resolution paths (environment
variables and the credentials file) and never mentions the access-token
path: it contains the items "1." and "2." but no "3.", and the words
"access" and "token" (lower case) never occur in it. -/
theorem c4_counterexample :
    get_ads_client envNoCreds none = Except.error noCredsMsg
    ∧ strContains noCredsMsg "1." = true
    ∧ strContains noCredsMsg "2." = true
    ∧ strContains noCredsMsg "3." = false
    ∧ strContains noCredsMsg "access" = false
    ∧ strContains noCredsMsg "token" = false := by
  refine ⟨rfl, by decide, by decide, by decide, by decide, by decide⟩

set_option maxRecDepth 20000 in
/-- C4 amended: get_ads_client raises an error if and only if no credential
source resolves (no usable per-request token, empty cache, the four
environment variables not all set, credentials file absent), the only
error it raises is the fixed configuration message, and that message
enumerates the environment-variable path and the credentials-file path
(the two non-token resolution paths). -/
theorem c4_error_iff_no_source (env : Env) (cache : Option AdsClient) :
    (get_ads_client env cache = Except.error noCredsMsg
      ↔ (tokenOf env = none ∧ cache = none ∧ _get_client_from_env env = none
          ∧ env.fileExists (credPath env) = false))
    ∧ (∀ e, get_ads_client env cache = Except.error e → e = noCredsMsg)
    ∧ (_get_client_from_env env = none
        ↔ (strTruthy env.developerTokenVar && strTruthy env.clientIdVar
            && strTruthy env.clientSecretVar && strTruthy env.refreshTokenVar) = false)
    ∧ strContains noCredsMsg "GOOGLE_ADS_DEVELOPER_TOKEN" = true
    ∧ strContains noCredsMsg "GOOGLE_ADS_CLIENT_ID" = true
    ∧ strContains noCredsMsg "GOOGLE_ADS_CLIENT_SECRET" = true
    ∧ strContains noCredsMsg "GOOGLE_ADS_REFRESH_TOKEN" = true
    ∧ strContains noCredsMsg "google-ads.yaml" = true
    ∧ strContains noCredsMsg "GOOGLE_ADS_CREDENTIALS" = true := by
  refine ⟨?_, ?_, ?_, by decide, by decide, by decide, by decide, by decide, by decide⟩
  · constructor
    · intro h
      cases ht : tokenOf env with
      | some tok => simp [get_ads_client, ht] at h
      | none =>
        cases cache with
        | some c => simp [get_ads_client, ht] at h
        | none =>
          cases hc : _get_client_from_env env with
          | some c => simp [get_ads_client, ht, hc] at h
          | none =>
            cases hf : env.fileExists (credPath env) with
            | true => simp [get_ads_client, ht, hc, hf] at h
            | false => exact ⟨rfl, rfl, rfl, rfl⟩
    · rintro ⟨ht, hcache, hc, hf⟩
      subst hcache
      simp [get_ads_client, ht, hc, hf]
  · intro e h
    cases ht : tokenOf env with
    | some tok => simp [get_ads_client, ht] at h
    | none =>
      cases cache with
      | some c => simp [get_ads_client, ht] at h
      | none =>
        cases hc : _get_client_from_env env with
        | some c => simp [get_ads_client, ht, hc] at h
        | none =>
          cases hf : env.fileExists (credPath env) with
          | true => simp [get_ads_client, ht, hc, hf] at h
          | false =>
            simp [get_ads_client, ht, hc, hf] at h
            exact h.symm
  · unfold _get_client_from_env
    cases h : (strTruthy env.developerTokenVar && strTruthy env.clientIdVar
        && strTruthy env.clientSecretVar && strTruthy env.refreshTokenVar) <;> simp [h]

/-- Witness for C4: in the environment with no credential source the claimed
equivalence produces the configuration error. -/
theorem c4_error_iff_no_source_witness :
    get_ads_client envNoCreds none = Except.error noCredsMsg :=
  (c4_error_iff_no_source envNoCreds none).1.mpr ⟨rfl, rfl, rfl, rfl⟩

/-! ## Claim C5 -/

/-- C5: in every update request that update_ad_group actually builds, the
update mask contains the path of an optional argument exactly when the
caller supplied that argument; in particular supplying only name yields
the mask ["name"], and "status" or "cpc_bid_micros" never appear in the
mask when those arguments are omitted. -/
theorem c5_update_ad_group_mask (statusEnum : List String)
    (customer_id ad_group_id : String) (status name : Option String)
    (cpc_bid_micros : Option Int) (req : AdGroupUpdate)
    (h : update_ad_group statusEnum customer_id ad_group_id status name cpc_bid_micros
      = Except.ok req) :
    ("status" ∈ req.update_mask ↔ status.isSome)
    ∧ ("name" ∈ req.update_mask ↔ name.isSome)
    ∧ ("cpc_bid_micros" ∈ req.update_mask ↔ cpc_bid_micros.isSome)
    ∧ (status = none → cpc_bid_micros = none → req.update_mask = ["name"]) := by
  cases status with
  | none =>
    cases name with
    | none =>
      cases cpc_bid_micros with
      | none => simp [update_ad_group] at h
      | some c =>
        simp [update_ad_group, Bind.bind, Except.bind, pure, Except.pure] at h
        subst h
        simp
    | some nm =>
      cases cpc_bid_micros with
      | none =>
        simp [update_ad_group, Bind.bind, Except.bind, pure, Except.pure] at h
        subst h
        simp
      | some c =>
        simp [update_ad_group, Bind.bind, Except.bind, pure, Except.pure] at h
        subst h
        simp
  | some s =>
    by_cases hs : s ∈ statusEnum
    · cases name with
      | none =>
        cases cpc_bid_micros with
        | none =>
          simp [update_ad_group, _enum_value, hs, Bind.bind, Except.bind,
            pure, Except.pure] at h
          subst h
          simp
        | some c =>
          simp [update_ad_group, _enum_value, hs, Bind.bind, Except.bind,
            pure, Except.pure] at h
          subst h
          simp
      | some nm =>
        cases cpc_bid_micros with
        | none =>
          simp [update_ad_group, _enum_value, hs, Bind.bind, Except.bind,
            pure, Except.pure] at h
          subst h
          simp
        | some c =>
          simp [update_ad_group, _enum_value, hs, Bind.bind, Except.bind,
            pure, Except.pure] at h
          subst h
          simp
    · cases name <;> cases cpc_bid_micros <;>
        simp [update_ad_group, _enum_value, hs, Bind.bind, Except.bind,
          pure, Except.pure] at h

/-- Witness for C5: supplying only the name yields the update mask
consisting exactly of "name". -/
theorem c5_update_ad_group_mask_witness :
    update_ad_group ["ENABLED", "PAUSED", "REMOVED"] "123" "456"
        none (some "New name") none
      = Except.ok ⟨ad_group_path "123" "456", none, some "New name", none, ["name"]⟩
    ∧ ("status" ∈ (["name"] : List String) ↔ (none : Option String).isSome) :=
  ⟨rfl,
   ((c5_update_ad_group_mask ["ENABLED", "PAUSED", "REMOVED"] "123" "456"
      none (some "New name") none _ rfl).1)⟩

/-! ## Claim C6 -/

/-- C6: update_ad_group with none of status, name, or cpc_bid_micros set
fails with the local validation error and builds no request (so no network
call is performed), and add_keywords with an empty keyword list fails
locally before any operation object is built.  The remaining two functions
named by the claim cannot be invoked this way at all: create_ad_group
requires name as a mandatory argument, and update_campaign_status has no
keywords parameter, so for them the claimed scenario has no call to
perform a network request. -/
theorem c6_local_validation (statusEnum matchTypeEnum : List String)
    (customer_id ad_group_id ad_group_id2 match_type : String) :
    update_ad_group statusEnum customer_id ad_group_id none none none
      = Except.error "At least one of status, name, or cpc_bid_micros is required"
    ∧ add_keywords matchTypeEnum customer_id ad_group_id2 [] match_type
      = Except.error "keywords must not be empty" := by
  constructor
  · simp [update_ad_group]
  · simp [add_keywords]

/-! ## Claim C7 -/

/-- C7: customer-list member normalization is case- and
whitespace-insensitive and identical for emails and phone numbers: any two
raw values that agree after lower-casing, trimming and stripping all
internal whitespace receive equal digests from _normalize_and_hash (the
function applied to emails and phone numbers alike), and every outgoing
operation carries only the digest of a normalized input value, never the
raw value. -/
theorem c7_normalization_insensitive :
    (∀ (sha256_hex : String → String) (a b : String),
        specNormalize a = specNormalize b →
        _normalize_and_hash sha256_hex a true = _normalize_and_hash sha256_hex b true)
    ∧ (∀ (sha256_hex : String → String) (emails phone_numbers : List String)
          (remove : Bool) (op : OfflineOp),
        op ∈ _build_offline_user_data_job_operations sha256_hex emails phone_numbers remove →
        ∃ v, (v ∈ emails ∧ op.user_identifiers
                = [UserIdentifier.hashedEmail (_normalize_and_hash sha256_hex v true)])
          ∨ (v ∈ phone_numbers ∧ op.user_identifiers
                = [UserIdentifier.hashedPhone (_normalize_and_hash sha256_hex v true)])) := by
  constructor
  · intro sha256_hex a b hab
    show sha256_hex (removeAllWS (pyLower (pyStrip a)))
      = sha256_hex (removeAllWS (pyLower (pyStrip b)))
    rw [code_normalize_eq_specNormalize, code_normalize_eq_specNormalize, hab]
  · intro sha256_hex emails phone_numbers remove op hop
    unfold _build_offline_user_data_job_operations at hop
    rcases List.mem_append.mp hop with hm | hm
    · rcases List.mem_map.mp hm with ⟨v, hv, heq⟩
      exact ⟨v, Or.inl ⟨hv, by rw [← heq]; rfl⟩⟩
    · rcases List.mem_map.mp hm with ⟨v, hv, heq⟩
      exact ⟨v, Or.inr ⟨hv, by rw [← heq]; rfl⟩⟩

/-- Witness for C7: the two example strings normalize identically, so their
digests agree for any digest function. -/
theorem c7_normalization_insensitive_witness :
    specNormalize "  A@B.com " = specNormalize "a@b.com"
    ∧ _normalize_and_hash id "  A@B.com " true = _normalize_and_hash id "a@b.com" true :=
  ⟨by decide, c7_normalization_insensitive.1 id "  A@B.com " "a@b.com" (by decide)⟩

/-! ## Claim C10 -/

/-- C10: on success, add_customer_list_members and
remove_customer_list_members report an operation_count equal to the number
of emails plus the number of phone numbers (an omitted list counting as
empty), and the operations sent are exactly one hashed-identifier
operation per input value, all email operations before all phone-number
operations, in input order. -/
theorem c10_member_operation_count (sha256_hex : String → String)
    (emails phone_numbers : Option (List String)) :
    (∀ ops n, add_customer_list_members sha256_hex emails phone_numbers
        = Except.ok (ops, n) →
      n = (pyOrList emails).length + (pyOrList phone_numbers).length
      ∧ ops = (pyOrList emails).map (emailOperation sha256_hex false)
          ++ (pyOrList phone_numbers).map (phoneOperation sha256_hex false))
    ∧ (∀ ops n, remove_customer_list_members sha256_hex emails phone_numbers
        = Except.ok (ops, n) →
      n = (pyOrList emails).length + (pyOrList phone_numbers).length
      ∧ ops = (pyOrList emails).map (emailOperation sha256_hex true)
          ++ (pyOrList phone_numbers).map (phoneOperation sha256_hex true)) := by
  constructor
  · intro ops n h
    by_cases he : pyOrList emails = [] ∧ pyOrList phone_numbers = []
    · simp [add_customer_list_members, he.1, he.2] at h
    · simp only [add_customer_list_members, _build_offline_user_data_job_operations,
        if_neg he, Except.ok.injEq, Prod.mk.injEq] at h
      refine ⟨?_, h.1.symm⟩
      rw [← h.2]
      simp
  · intro ops n h
    by_cases he : pyOrList emails = [] ∧ pyOrList phone_numbers = []
    · simp [remove_customer_list_members, he.1, he.2] at h
    · simp only [remove_customer_list_members, _build_offline_user_data_job_operations,
        if_neg he, Except.ok.injEq, Prod.mk.injEq] at h
      refine ⟨?_, h.1.symm⟩
      rw [← h.2]
      simp

/-- Witness for C10: one email plus one phone number give operation count
two, with the email operation first. -/
theorem c10_member_operation_count_witness :
    add_customer_list_members id (some ["a@b.com"]) (some ["+1 234"])
      = Except.ok ([emailOperation id false "a@b.com", phoneOperation id false "+1 234"], 2)
    ∧ (2 = (pyOrList (some ["a@b.com"])).length + (pyOrList (some ["+1 234"])).length
      ∧ [emailOperation id false "a@b.com", phoneOperation id false "+1 234"]
        = (pyOrList (some ["a@b.com"])).map (emailOperation id false)
          ++ (pyOrList (some ["+1 234"])).map (phoneOperation id false)) :=
  ⟨rfl, (c10_member_operation_count id (some ["a@b.com"]) (some ["+1 234"])).1
    [emailOperation id false "a@b.com", phoneOperation id false "+1 234"] 2 rfl⟩

/-! ## Claim C9 -/

/-- Counterexample for C9 as stated: at current date (2026, October), with
only end_year supplied (2026) and every other date field omitted, the
defaulted range runs from January 2025 to October 2026, which covers 22
calendar months, not the trailing 12 months ending at the current month. -/
theorem c9_counterexample :
    generate_keyword_ideas_range 2026 10 none none (some 2026) none
      = Except.ok (some ⟨⟨2025, "JANUARY"⟩, ⟨2026, "OCTOBER"⟩⟩)
    ∧ ¬ isTrailingTwelveMonths 2026 10 ⟨⟨2025, "JANUARY"⟩, ⟨2026, "OCTOBER"⟩⟩
    ∧ monthsSpan ⟨⟨2025, "JANUARY"⟩, ⟨2026, "OCTOBER"⟩⟩ = 22 :=
  ⟨rfl, by decide, by decide⟩

/-- C9 amended: when generate_keyword_ideas is given at least one date
field, the omitted fields default to start_year = the previous year,
start_month = JANUARY, end_year = the current year and end_month = the
current month name (not to a trailing 12-month window), and supplied month
names are upper-cased and validated against the fixed 12-name enumeration,
an invalid name failing with a local error listing the valid names. -/
theorem c9_date_defaults (nowYear : Int) (nowMonth : Nat)
    (start_year : Option Int) (start_month : Option String)
    (end_year : Option Int) (end_month : Option String)
    (hgiven : (start_year.isSome || start_month.isSome
        || end_year.isSome || end_month.isSome) = true) :
    (_VALID_MONTHS.contains (pyUpper (pyOrStr start_month "JANUARY")) = true →
      _VALID_MONTHS.contains
        (pyUpper (pyOrStr end_month (_VALID_MONTHS.getD (nowMonth - 1) ""))) = true →
      generate_keyword_ideas_range nowYear nowMonth start_year start_month end_year end_month
        = Except.ok (some ⟨⟨start_year.getD (nowYear - 1), pyUpper (pyOrStr start_month "JANUARY")⟩,
            ⟨end_year.getD nowYear,
             pyUpper (pyOrStr end_month (_VALID_MONTHS.getD (nowMonth - 1) ""))⟩⟩))
    ∧ (_VALID_MONTHS.contains (pyUpper (pyOrStr start_month "JANUARY")) = false →
      generate_keyword_ideas_range nowYear nowMonth start_year start_month end_year end_month
        = Except.error ("Invalid start_month \x27" ++ pyUpper (pyOrStr start_month "JANUARY")
            ++ "\x27. Must be one of: " ++ String.intercalate ", " _VALID_MONTHS))
    ∧ (_VALID_MONTHS.contains (pyUpper (pyOrStr start_month "JANUARY")) = true →
      _VALID_MONTHS.contains
        (pyUpper (pyOrStr end_month (_VALID_MONTHS.getD (nowMonth - 1) ""))) = false →
      generate_keyword_ideas_range nowYear nowMonth start_year start_month end_year end_month
        = Except.error ("Invalid end_month \x27"
            ++ pyUpper (pyOrStr end_month (_VALID_MONTHS.getD (nowMonth - 1) ""))
            ++ "\x27. Must be one of: " ++ String.intercalate ", " _VALID_MONTHS)) := by
  refine ⟨fun hs he => ?_, fun hs => ?_, fun hs he => ?_⟩
  · simp only [generate_keyword_ideas_range, hgiven, if_true, hs, he]
    try simp
  · simp only [generate_keyword_ideas_range, hgiven, if_true, hs]
    try simp
  · simp only [generate_keyword_ideas_range, hgiven, if_true, hs, he]
    try simp

/-- Witness for C9 amended: at current date (2026, October) with only
start_year = 2024 supplied, the range defaults to January 2024 through
October 2026, and an invalid month name produces the listing error. -/
theorem c9_date_defaults_witness :
    generate_keyword_ideas_range 2026 10 (some 2024) none none none
      = Except.ok (some ⟨⟨2024, "JANUARY"⟩, ⟨2026, "OCTOBER"⟩⟩)
    ∧ generate_keyword_ideas_range 2026 10 none (some "Smarch") none none
      = Except.error ("Invalid start_month \x27SMARCH\x27. Must be one of: "
          ++ String.intercalate ", " _VALID_MONTHS) :=
  ⟨(c9_date_defaults 2026 10 (some 2024) none none none (by decide)).1
      (by decide) (by decide),
   (c9_date_defaults 2026 10 none (some "Smarch") none none (by decide)).2.1
      (by decide)⟩

end AdsMcp
